import Mathlib

/-
  Shallow embedding of src/nuklear_gamepad.h (nuklear_gamepad, a per-tick
  gamepad button state tracker).  C unsigned int masks are modelled as Nat
  kept below 2^32 by the bit operations themselves; pointers that only flow
  through (context, user data, backend data) are modelled as Nat; a possibly
  null tracker pointer is modelled as Option nk_gamepads; the conditionally
  compiled backend poll hook (NK_GAMEPAD_UPDATE) is modelled as an explicit
  function parameter, and the default build (no backend macros defined) has
  no init, free or name hooks, so nk_gamepad_init and nk_gamepad_name carry
  none.
-/

/-- Model of the macro NK_GAMEPAD_MAX (default 4). -/
def NK_GAMEPAD_MAX : Nat := 4

/-- Model of the macro NK_GAMEPAD_NAME_PREFIX. -/
def NK_GAMEPAD_NAME_PREFIX : String := "Controller "

/-- Largest value of a C unsigned int, the type of the button masks. -/
def NK_UINT_MAX : Nat := 2 ^ 32 - 1

/-- Model of the macro NK_GAMEPAD_BUTTON_FLAG(button) = (1 << (button)),
computed in the unsigned int range. -/
def NK_GAMEPAD_BUTTON_FLAG (button : Nat) : Nat :=
  (1 <<< button) % (NK_UINT_MAX + 1)

/-- Ordinal of NK_GAMEPAD_BUTTON_FIRST in enum nk_gamepad_button. -/
def NK_GAMEPAD_BUTTON_FIRST : Nat := 0

/-- Ordinal of NK_GAMEPAD_BUTTON_UP. -/
def NK_GAMEPAD_BUTTON_UP : Nat := 0

/-- Ordinal of NK_GAMEPAD_BUTTON_A. -/
def NK_GAMEPAD_BUTTON_A : Nat := 4

/-- Ordinal of NK_GAMEPAD_BUTTON_X. -/
def NK_GAMEPAD_BUTTON_X : Nat := 6

/-- Ordinal of NK_GAMEPAD_BUTTON_BACK. -/
def NK_GAMEPAD_BUTTON_BACK : Nat := 10

/-- Ordinal of NK_GAMEPAD_BUTTON_START. -/
def NK_GAMEPAD_BUTTON_START : Nat := 11

/-- Ordinal of NK_GAMEPAD_BUTTON_LAST, one past the last real button. -/
def NK_GAMEPAD_BUTTON_LAST : Nat := 12

/-- Model of struct nk_gamepad: one slot of the tracker. -/
structure nk_gamepad where
  available : Bool
  buttons : Nat
  buttons_prev : Nat
  name : String
  data : Nat
deriving DecidableEq, Repr

/-- Model of struct nk_gamepads: the whole tracker. -/
structure nk_gamepads where
  gamepads : Fin NK_GAMEPAD_MAX → nk_gamepad
  ctx : Nat
  user_data : Nat

/-- An all zero slot, the state produced by nk_zero. -/
def nk_zero_gamepad : nk_gamepad :=
  { available := false, buttons := 0, buttons_prev := 0, name := "", data := 0 }

/-- Array read gamepads.gamepads[i] with a C int index already known
non-negative; out of bounds reads never happen on the paths the code takes,
the default is arbitrary. -/
def nk_gamepads.pad (gs : nk_gamepads) (i : Nat) : nk_gamepad :=
  if h : i < NK_GAMEPAD_MAX then gs.gamepads ⟨i, h⟩ else nk_zero_gamepad

/-- Array write gamepads.gamepads[i] = v. -/
def nk_gamepads.setPad (gs : nk_gamepads) (i : Nat) (v : nk_gamepad) : nk_gamepads :=
  if h : i < NK_GAMEPAD_MAX then
    { gs with gamepads := Function.update gs.gamepads ⟨i, h⟩ v }
  else gs

instance : DecidableEq nk_gamepads := fun a b =>
  decidable_of_iff
    (a.gamepads = b.gamepads ∧ a.ctx = b.ctx ∧ a.user_data = b.user_data)
    (by cases a; cases b; simp)

/-- A C style for loop with an early true return: loopAny p k r scans the
indices k, k+1, ..., k+r-1 in order and returns true as soon as p holds. -/
def loopAny (p : Nat → Bool) (k : Nat) : Nat → Bool
  | 0 => false
  | r + 1 => if p k then true else loopAny p (k + 1) r

/-- A C style for loop with an early return of a payload: scans indices
k, ..., k+r-1 in order and returns the first result f produces. -/
def loopFindSome {α : Type} (f : Nat → Option α) (k : Nat) : Nat → Option α
  | 0 => none
  | r + 1 =>
    match f k with
    | some x => some x
    | none => loopFindSome f (k + 1) r

theorem loopAny_eq_true_iff (p : Nat → Bool) (k r : Nat) :
    loopAny p k r = true ↔ ∃ c, k ≤ c ∧ c < k + r ∧ p c = true := by
  induction r generalizing k with
  | zero =>
    simp only [loopAny]
    constructor
    · intro h; exact absurd h (by simp)
    · rintro ⟨c, h1, h2, _⟩; omega
  | succ r ih =>
    cases hp : p k with
    | true =>
      simp only [loopAny, hp, if_true, true_iff]
      exact ⟨k, Nat.le_refl k, by omega, hp⟩
    | false =>
      simp only [loopAny, hp, Bool.false_eq_true, if_false, ih (k + 1)]
      constructor
      · rintro ⟨c, h1, h2, h3⟩
        exact ⟨c, by omega, by omega, h3⟩
      · rintro ⟨c, h1, h2, h3⟩
        have hck : c ≠ k := by
          intro h; rw [h, hp] at h3; exact absurd h3 (by simp)
        exact ⟨c, by omega, by omega, h3⟩

theorem loopFindSome_eq_none_iff {α : Type} (f : Nat → Option α) (k r : Nat) :
    loopFindSome f k r = none ↔ ∀ c, k ≤ c → c < k + r → f c = none := by
  induction r generalizing k with
  | zero =>
    simp only [loopFindSome]
    constructor
    · intro _ c h1 h2; exact absurd h2 (by omega)
    · intro _; trivial
  | succ r ih =>
    cases hf : f k with
    | some x =>
      simp only [loopFindSome, hf]
      constructor
      · intro h; exact absurd h (by simp)
      · intro h
        have h2 := h k (Nat.le_refl k) (by omega)
        rw [hf] at h2; exact absurd h2 (by simp)
    | none =>
      simp only [loopFindSome, hf, ih (k + 1)]
      constructor
      · intro h c h1 h2
        rcases Nat.eq_or_lt_of_le h1 with h3 | h3
        · rw [← h3]; exact hf
        · exact h c h3 (by omega)
      · intro h c h1 h2
        exact h c (by omega) (by omega)

theorem loopFindSome_eq_some_iff {α : Type} (f : Nat → Option α) (k r : Nat) (x : α) :
    loopFindSome f k r = some x ↔
      ∃ c, k ≤ c ∧ c < k + r ∧ f c = some x ∧ ∀ d, k ≤ d → d < c → f d = none := by
  induction r generalizing k with
  | zero =>
    simp only [loopFindSome]
    constructor
    · intro h; exact absurd h (by simp)
    · rintro ⟨c, h1, h2, _, _⟩; omega
  | succ r ih =>
    cases hf : f k with
    | some y =>
      simp only [loopFindSome, hf]
      constructor
      · intro h
        refine ⟨k, Nat.le_refl k, by omega, ?_, ?_⟩
        · rw [hf]; exact h
        · intro d h1 h2; omega
      · rintro ⟨c, h1, h2, h3, h4⟩
        rcases Nat.eq_or_lt_of_le h1 with h5 | h5
        · rw [h5] at hf; rw [hf] at h3; exact h3
        · have h6 := h4 k (Nat.le_refl k) h5
          rw [hf] at h6; exact absurd h6 (by simp)
    | none =>
      simp only [loopFindSome, hf, ih (k + 1)]
      constructor
      · rintro ⟨c, h1, h2, h3, h4⟩
        refine ⟨c, by omega, by omega, h3, ?_⟩
        intro d h5 h6
        rcases Nat.eq_or_lt_of_le h5 with h7 | h7
        · rw [← h7]; exact hf
        · exact h4 d h7 h6
      · rintro ⟨c, h1, h2, h3, h4⟩
        have hck : c ≠ k := by
          intro h; rw [h, hf] at h3; exact absurd h3 (by simp)
        refine ⟨c, by omega, by omega, h3, ?_⟩
        intro d h5 h6
        exact h4 d (by omega) h6

theorem NK_GAMEPAD_BUTTON_FLAG_eq_two_pow (b : Nat) (hb : b < 32) :
    NK_GAMEPAD_BUTTON_FLAG b = 2 ^ b := by
  have h1 : (1 : Nat) <<< b = 2 ^ b := by
    rw [Nat.shiftLeft_eq, one_mul]
  have h2 : NK_UINT_MAX + 1 = 2 ^ 32 := by decide
  rw [NK_GAMEPAD_BUTTON_FLAG, h1, h2]
  exact Nat.mod_eq_of_lt (Nat.pow_lt_pow_right (by omega) hb)

theorem and_flag_bne_zero (m b : Nat) (hb : b < 32) :
    ((m &&& NK_GAMEPAD_BUTTON_FLAG b) != 0) = m.testBit b := by
  rw [NK_GAMEPAD_BUTTON_FLAG_eq_two_pow b hb, Nat.and_two_pow]
  have hpow : (2 : Nat) ^ b ≠ 0 := pow_ne_zero b (by omega)
  cases h : m.testBit b <;> simp [h, hpow]

theorem and_flag_beq_zero (m b : Nat) (hb : b < 32) :
    ((m &&& NK_GAMEPAD_BUTTON_FLAG b) == 0) = !m.testBit b := by
  have h := and_flag_bne_zero m b hb
  cases h2 : m.testBit b <;> rw [h2] at h <;> simp_all [bne]

/-- Translation of nk_gamepad_init (default build: NK_GAMEPAD_INIT is not
defined, so the backend init hook is absent).  Returns the new tracker state
and the nk_bool result.  The three stages mirror the C body: nk_zero plus
storing ctx and user_data, the loop setting available and the default name,
and the final loop seeding buttons_prev from buttons. -/
def nk_gamepad_init (g : Option nk_gamepads) (ctx : Nat) (user_data : Nat) :
    Option nk_gamepads × Bool :=
  match g with
  | none => (none, false)
  | some _ =>
    let zeroed : nk_gamepads :=
      { gamepads := fun _ => nk_zero_gamepad, ctx := ctx, user_data := user_data }
    let defaulted : nk_gamepads :=
      { zeroed with
        gamepads := fun i =>
          { zeroed.gamepads i with
            available := true
            name := NK_GAMEPAD_NAME_PREFIX ++ toString (i.val + 1) } }
    let synced : nk_gamepads :=
      { defaulted with
        gamepads := fun i =>
          { defaulted.gamepads i with
            buttons_prev := (defaulted.gamepads i).buttons } }
    (some synced, true)

/-- Body of the per slot loop of nk_gamepad_update. -/
def nk_gamepad_update_slot (p : nk_gamepad) : nk_gamepad :=
  if p.available = false then p
  else { p with buttons_prev := p.buttons, buttons := 0 }

/-- The per slot rotation loop of nk_gamepad_update, applied to every slot. -/
def nk_gamepad_rotate (gs : nk_gamepads) : nk_gamepads :=
  { gs with gamepads := fun i => nk_gamepad_update_slot (gs.gamepads i) }

/-- Translation of nk_gamepad_update.  The conditionally compiled backend
poll hook NK_GAMEPAD_UPDATE is modelled as the explicit parameter poll
(identity when the macro is not defined); the C body runs the whole rotation
loop first and invokes the hook after it. -/
def nk_gamepad_update (poll : nk_gamepads → nk_gamepads) (g : Option nk_gamepads) :
    Option nk_gamepads :=
  match g with
  | none => none
  | some gs => some (poll (nk_gamepad_rotate gs))

/-- Translation of nk_gamepad_button: sets or clears the bit of the given
button in the current mask of slot num, a no-op when the tracker is null,
num is out of range, or the slot is unavailable.  The C clear operation
buttons &= ~FLAG is the unsigned int complement, modelled as xor with
NK_UINT_MAX. -/
def nk_gamepad_button (g : Option nk_gamepads) (num : Int) (button : Nat)
    (down : Bool) : Option nk_gamepads :=
  match g with
  | none => none
  | some gs =>
    if num < 0 ∨ (NK_GAMEPAD_MAX : Int) ≤ num ∨ (gs.pad num.toNat).available = false then
      some gs
    else if down then
      some (gs.setPad num.toNat
        { gs.pad num.toNat with
          buttons := (gs.pad num.toNat).buttons ||| NK_GAMEPAD_BUTTON_FLAG button })
    else
      some (gs.setPad num.toNat
        { gs.pad num.toNat with
          buttons := (gs.pad num.toNat).buttons &&& (NK_UINT_MAX ^^^ NK_GAMEPAD_BUTTON_FLAG button) })

/-- Translation of nk_gamepad_is_button_down. -/
def nk_gamepad_is_button_down (g : Option nk_gamepads) (num : Int) (button : Nat) : Bool :=
  match g with
  | none => false
  | some gs =>
    if num < 0 then
      loopAny (fun i =>
        (gs.pad i).available &&
          (((gs.pad i).buttons &&& NK_GAMEPAD_BUTTON_FLAG button) != 0)) 0 NK_GAMEPAD_MAX
    else if (NK_GAMEPAD_MAX : Int) ≤ num ∨ (gs.pad num.toNat).available = false then
      false
    else
      ((gs.pad num.toNat).buttons &&& NK_GAMEPAD_BUTTON_FLAG button) != 0

/-- Translation of nk_gamepad_is_button_pressed. -/
def nk_gamepad_is_button_pressed (g : Option nk_gamepads) (num : Int) (button : Nat) : Bool :=
  match g with
  | none => false
  | some gs =>
    if num < 0 then
      loopAny (fun i =>
        (gs.pad i).available &&
          ((((gs.pad i).buttons_prev &&& NK_GAMEPAD_BUTTON_FLAG button) == 0) &&
            (((gs.pad i).buttons &&& NK_GAMEPAD_BUTTON_FLAG button) != 0))) 0 NK_GAMEPAD_MAX
    else if (NK_GAMEPAD_MAX : Int) ≤ num ∨ (gs.pad num.toNat).available = false then
      false
    else
      (((gs.pad num.toNat).buttons_prev &&& NK_GAMEPAD_BUTTON_FLAG button) == 0) &&
        (((gs.pad num.toNat).buttons &&& NK_GAMEPAD_BUTTON_FLAG button) != 0)

/-- Translation of nk_gamepad_is_button_released. -/
def nk_gamepad_is_button_released (g : Option nk_gamepads) (num : Int) (button : Nat) : Bool :=
  match g with
  | none => false
  | some gs =>
    if num < 0 then
      loopAny (fun i =>
        (gs.pad i).available &&
          ((((gs.pad i).buttons &&& NK_GAMEPAD_BUTTON_FLAG button) == 0) &&
            (((gs.pad i).buttons_prev &&& NK_GAMEPAD_BUTTON_FLAG button) != 0))) 0 NK_GAMEPAD_MAX
    else if (NK_GAMEPAD_MAX : Int) ≤ num ∨ (gs.pad num.toNat).available = false then
      false
    else
      (((gs.pad num.toNat).buttons &&& NK_GAMEPAD_BUTTON_FLAG button) == 0) &&
        (((gs.pad num.toNat).buttons_prev &&& NK_GAMEPAD_BUTTON_FLAG button) != 0)

/-- Translation of nk_gamepad_count. -/
def nk_gamepad_count (g : Option nk_gamepads) : Nat :=
  match g with
  | none => 0
  | some _ => NK_GAMEPAD_MAX

/-- Translation of nk_gamepad_name (default build: NK_GAMEPAD_NAME is not
defined, so the stored name is returned); NULL is modelled as none. -/
def nk_gamepad_name (g : Option nk_gamepads) (num : Int) : Option String :=
  match g with
  | none => none
  | some gs =>
    if num < 0 ∨ (NK_GAMEPAD_MAX : Int) ≤ num ∨ (gs.pad num.toNat).available = false then
      none
    else
      some (gs.pad num.toNat).name

/-- Translation of nk_gamepad_user_data. -/
def nk_gamepad_user_data (g : Option nk_gamepads) : Option Nat :=
  match g with
  | none => none
  | some gs => some gs.user_data

/-- The inner button loop of nk_gamepad_any_button_pressed: the first button
ordinal in [NK_GAMEPAD_BUTTON_FIRST, NK_GAMEPAD_BUTTON_LAST) that
nk_gamepad_is_button_pressed reports on slot num. -/
def nk_gamepad_first_pressed_button (gs : nk_gamepads) (num : Int) : Option Nat :=
  loopFindSome
    (fun b => if nk_gamepad_is_button_pressed (some gs) num b then some b else none)
    NK_GAMEPAD_BUTTON_FIRST NK_GAMEPAD_BUTTON_LAST

/-- The outer slot loop of nk_gamepad_any_button_pressed for a negative num:
slots in ascending order, buttons in ascending order within each slot. -/
def nk_gamepad_first_pressed_pair (gs : nk_gamepads) : Option (Nat × Nat) :=
  loopFindSome
    (fun s => (nk_gamepad_first_pressed_button gs (s : Int)).map (fun b => (s, b)))
    0 NK_GAMEPAD_MAX

/-- Translation of nk_gamepad_any_button_pressed.  The two output pointers
are modelled by the booleans out_num and out_button recording whether the
pointer is non-null; the second and third components of the result hold the
value written through each pointer (none when nothing is written). -/
def nk_gamepad_any_button_pressed (g : Option nk_gamepads) (num : Int)
    (out_num : Bool) (out_button : Bool) : Bool × Option Int × Option Nat :=
  match g with
  | none => (false, none, none)
  | some gs =>
    if (NK_GAMEPAD_MAX : Int) ≤ num then (false, none, none)
    else if num < 0 then
      match nk_gamepad_first_pressed_pair gs with
      | some (s, b) =>
        (true, if out_num then some (s : Int) else none,
          if out_button then some b else none)
      | none => (false, none, none)
    else if (gs.pad num.toNat).available = false then (false, none, none)
    else
      match nk_gamepad_first_pressed_button gs num with
      | some b =>
        (true, if out_num then some num else none,
          if out_button then some b else none)
      | none => (false, none, none)

/-- Modelled from the spec: a backend toggling the availability flag of one
slot (section 6 of the spec, the poll hook may toggle available to reflect
hot plug state).  No function of the core writes this flag after init, so
the toggle is the plain field write the spec describes. -/
def nk_gamepad_set_available (gs : nk_gamepads) (i : Nat) (b : Bool) : nk_gamepads :=
  gs.setPad i { gs.pad i with available := b }

/-- An all zero tracker, used as the pre-init argument of the examples. -/
def nk_gs_zero : nk_gamepads :=
  { gamepads := fun _ => nk_zero_gamepad, ctx := 0, user_data := 0 }

/-- The tracker right after a successful init. -/
def nk_gs_init : nk_gamepads :=
  ((nk_gamepad_init (some nk_gs_zero) 7 9).1).getD nk_gs_zero

/-- The init tracker after the backend pressed button A on slot 0. -/
def nk_gs_pressA : nk_gamepads :=
  (nk_gamepad_button (some nk_gs_init) 0 NK_GAMEPAD_BUTTON_A true).getD nk_gs_init

/-- One tick later with no buttons held: A was just released on slot 0. -/
def nk_gs_afterA : nk_gamepads := nk_gamepad_rotate nk_gs_pressA

example : nk_gamepad_is_button_down (some nk_gs_pressA) 0 NK_GAMEPAD_BUTTON_A = true := by decide
example : nk_gamepad_is_button_pressed (some nk_gs_pressA) 0 NK_GAMEPAD_BUTTON_A = true := by decide
example : nk_gamepad_is_button_pressed (some nk_gs_pressA) (-1) NK_GAMEPAD_BUTTON_A = true := by decide
example : nk_gamepad_is_button_pressed (some nk_gs_pressA) 1 NK_GAMEPAD_BUTTON_A = false := by decide
example : nk_gamepad_is_button_released (some nk_gs_pressA) 0 NK_GAMEPAD_BUTTON_A = false := by decide
example : nk_gamepad_is_button_released (some nk_gs_afterA) 0 NK_GAMEPAD_BUTTON_A = true := by decide
example : nk_gamepad_is_button_down (some nk_gs_afterA) 0 NK_GAMEPAD_BUTTON_A = false := by decide
example : nk_gamepad_any_button_pressed (some nk_gs_pressA) (-1) true true = (true, some 0, some 4) := by decide
example : nk_gamepad_any_button_pressed (some nk_gs_pressA) (-1) false true = (true, none, some 4) := by decide
example : nk_gamepad_any_button_pressed (some nk_gs_afterA) (-1) true true = (false, none, none) := by decide
example : (nk_gs_pressA.pad 0).buttons = 16 := by decide
example : ((nk_gamepad_button (some nk_gs_init) 0 NK_GAMEPAD_BUTTON_LAST true).map
    (fun g2 => (g2.pad 0).buttons)) = some 4096 := by decide
example : nk_gamepad_name (some nk_gs_init) 0 = some "Controller 1" := by decide
example : nk_gamepad_name (some nk_gs_init) 4 = none := by decide

theorem NK_GAMEPAD_MAX_eq : NK_GAMEPAD_MAX = 4 := rfl

theorem NK_GAMEPAD_BUTTON_LAST_eq : NK_GAMEPAD_BUTTON_LAST = 12 := rfl

theorem pad_setPad_self (gs : nk_gamepads) (i : Nat) (v : nk_gamepad)
    (h : i < NK_GAMEPAD_MAX) : (gs.setPad i v).pad i = v := by
  simp [nk_gamepads.setPad, nk_gamepads.pad, h]

theorem pad_setPad_other (gs : nk_gamepads) (i j : Nat) (v : nk_gamepad)
    (hij : j ≠ i) : (gs.setPad i v).pad j = gs.pad j := by
  by_cases hi : i < NK_GAMEPAD_MAX
  · by_cases hj : j < NK_GAMEPAD_MAX
    · simp only [nk_gamepads.setPad, nk_gamepads.pad, dif_pos hi, dif_pos hj]
      have hne : (⟨j, hj⟩ : Fin NK_GAMEPAD_MAX) ≠ ⟨i, hi⟩ := by
        simp [Fin.ext_iff, hij]
      exact Function.update_noteq hne v gs.gamepads
    · simp [nk_gamepads.setPad, nk_gamepads.pad, hi, hj]
  · simp [nk_gamepads.setPad, hi]

theorem setPad_ctx (gs : nk_gamepads) (i : Nat) (v : nk_gamepad) :
    (gs.setPad i v).ctx = gs.ctx := by
  simp only [nk_gamepads.setPad]; split <;> rfl

theorem setPad_user_data (gs : nk_gamepads) (i : Nat) (v : nk_gamepad) :
    (gs.setPad i v).user_data = gs.user_data := by
  simp only [nk_gamepads.setPad]; split <;> rfl

theorem rotate_pad (gs : nk_gamepads) (s : Nat) (hs : s < NK_GAMEPAD_MAX) :
    (nk_gamepad_rotate gs).pad s = nk_gamepad_update_slot (gs.pad s) := by
  simp [nk_gamepad_rotate, nk_gamepads.pad, hs]

theorem init_result_pad (gs : nk_gamepads) (ctx ud t : Nat)
    (ht : t < NK_GAMEPAD_MAX) (gs2 : nk_gamepads)
    (h : (nk_gamepad_init (some gs) ctx ud).1 = some gs2) :
    gs2.pad t =
      { available := true, buttons := 0, buttons_prev := 0,
        name := NK_GAMEPAD_NAME_PREFIX ++ toString (t + 1), data := 0 } := by
  simp only [nk_gamepad_init, Option.some.injEq] at h
  subst h
  simp [nk_gamepads.pad, ht, nk_zero_gamepad]

/-- Claim C1: for every non-null tracker, Update sets previous_mask to
current_mask and then clears current_mask for every available slot, leaves
unavailable slots untouched, and completes the whole rotation before the
backend poll hook runs; Update on a null tracker changes nothing. -/
theorem nk_gamepad_update_spec (poll : nk_gamepads → nk_gamepads) (gs : nk_gamepads) :
    nk_gamepad_update poll (some gs) = some (poll (nk_gamepad_rotate gs)) ∧
    (∀ s, s < NK_GAMEPAD_MAX →
      ((gs.pad s).available = true →
        ((nk_gamepad_rotate gs).pad s).buttons_prev = (gs.pad s).buttons ∧
        ((nk_gamepad_rotate gs).pad s).buttons = 0) ∧
      ((gs.pad s).available = false → (nk_gamepad_rotate gs).pad s = gs.pad s)) ∧
    nk_gamepad_update poll none = none := by
  refine ⟨rfl, ?_, rfl⟩
  intro s hs
  rw [rotate_pad gs s hs]
  constructor
  · intro ha
    simp [nk_gamepad_update_slot, ha]
  · intro ha
    simp [nk_gamepad_update_slot, ha]

theorem nk_gamepad_update_spec_witness :
    ((nk_gamepad_rotate nk_gs_pressA).pad 0).buttons_prev = (nk_gs_pressA.pad 0).buttons ∧
    ((nk_gamepad_rotate nk_gs_pressA).pad 0).buttons = 0 :=
  ((nk_gamepad_update_spec id nk_gs_pressA).2.1 0 (by decide)).1 (by decide)

/-- Claim C2: after a successful init every slot has buttons_prev equal to
buttons, both zero, and is available, and for every slot index in range and
every button ordinal in the enum range, is_button_pressed and
is_button_released return false before the first update. -/
theorem nk_gamepad_init_spec (gs gs2 : nk_gamepads) (ctx ud : Nat) :
    (nk_gamepad_init (some gs) ctx ud).2 = true ∧
    ((nk_gamepad_init (some gs) ctx ud).1 = some gs2 →
      (∀ s, s < NK_GAMEPAD_MAX →
        (gs2.pad s).buttons_prev = (gs2.pad s).buttons ∧
        (gs2.pad s).buttons = 0 ∧
        (gs2.pad s).available = true) ∧
      (∀ num : Int, 0 ≤ num → num < (NK_GAMEPAD_MAX : Int) →
        ∀ b, NK_GAMEPAD_BUTTON_FIRST ≤ b → b < NK_GAMEPAD_BUTTON_LAST →
          nk_gamepad_is_button_pressed (some gs2) num b = false ∧
          nk_gamepad_is_button_released (some gs2) num b = false)) := by
  refine ⟨rfl, ?_⟩
  intro h
  constructor
  · intro s hs
    rw [init_result_pad gs ctx ud s hs gs2 h]
    exact ⟨rfl, rfl, rfl⟩
  · intro num h0 h4 b _ _
    have h4n : num < (4 : Int) := by rw [NK_GAMEPAD_MAX_eq] at h4; exact_mod_cast h4
    have ht : num.toNat < NK_GAMEPAD_MAX := by rw [NK_GAMEPAD_MAX_eq]; omega
    have hpad := init_result_pad gs ctx ud num.toNat ht gs2 h
    constructor
    · simp only [nk_gamepad_is_button_pressed]
      rw [if_neg (by omega), if_neg (by rw [hpad]; simp; omega)]
      rw [hpad]
      simp [Nat.zero_and]
    · simp only [nk_gamepad_is_button_released]
      rw [if_neg (by omega), if_neg (by rw [hpad]; simp; omega)]
      rw [hpad]
      simp [Nat.zero_and]

theorem nk_gamepad_init_spec_witness :
    nk_gamepad_is_button_pressed (some nk_gs_init) 0 NK_GAMEPAD_BUTTON_A = false ∧
    nk_gamepad_is_button_released (some nk_gs_init) 0 NK_GAMEPAD_BUTTON_A = false :=
  ((nk_gamepad_init_spec nk_gs_zero nk_gs_init 7 9).2 rfl).2 0 (by decide) (by decide)
    NK_GAMEPAD_BUTTON_A (by decide) (by decide)

theorem avail_eq_true_of_ne_false (x : Bool) (h : x ≠ false) : x = true := by
  cases h2 : x
  · exact absurd h2 h
  · rfl

theorem is_button_down_neg_iff (gs : nk_gamepads) (num : Int) (b : Nat)
    (hb : b < NK_GAMEPAD_BUTTON_LAST) (hneg : num < 0) :
    nk_gamepad_is_button_down (some gs) num b = true ↔
      ∃ s, s < NK_GAMEPAD_MAX ∧ (gs.pad s).available = true ∧
        (gs.pad s).buttons.testBit b = true := by
  have hb32 : b < 32 := by rw [NK_GAMEPAD_BUTTON_LAST_eq] at hb; omega
  simp only [nk_gamepad_is_button_down, if_pos hneg]
  rw [loopAny_eq_true_iff]
  constructor
  · rintro ⟨c, h1, h2, h3⟩
    rw [Bool.and_eq_true] at h3
    refine ⟨c, by omega, h3.1, ?_⟩
    rw [← and_flag_bne_zero _ b hb32]
    exact h3.2
  · rintro ⟨s, h1, h2, h3⟩
    refine ⟨s, by omega, by omega, ?_⟩
    rw [Bool.and_eq_true]
    exact ⟨h2, by rw [and_flag_bne_zero _ b hb32]; exact h3⟩

theorem is_button_down_nonneg_iff (gs : nk_gamepads) (num : Int) (b : Nat)
    (hb : b < NK_GAMEPAD_BUTTON_LAST) (h0 : 0 ≤ num) :
    nk_gamepad_is_button_down (some gs) num b = true ↔
      num < (NK_GAMEPAD_MAX : Int) ∧ (gs.pad num.toNat).available = true ∧
        (gs.pad num.toNat).buttons.testBit b = true := by
  have hb32 : b < 32 := by rw [NK_GAMEPAD_BUTTON_LAST_eq] at hb; omega
  simp only [nk_gamepad_is_button_down, if_neg (by omega : ¬num < 0)]
  by_cases hc : (NK_GAMEPAD_MAX : Int) ≤ num ∨ (gs.pad num.toNat).available = false
  · rw [if_pos hc]
    simp only [Bool.false_eq_true, false_iff]
    rintro ⟨h1, h2, _⟩
    rcases hc with hc | hc
    · omega
    · rw [h2] at hc; exact absurd hc (by simp)
  · rw [if_neg hc]
    push_neg at hc
    have hav : (gs.pad num.toNat).available = true :=
      avail_eq_true_of_ne_false _ hc.2
    rw [and_flag_bne_zero _ b hb32]
    constructor
    · intro h; exact ⟨hc.1, hav, h⟩
    · rintro ⟨_, _, h⟩; exact h

theorem is_button_pressed_neg_iff (gs : nk_gamepads) (num : Int) (b : Nat)
    (hb : b < NK_GAMEPAD_BUTTON_LAST) (hneg : num < 0) :
    nk_gamepad_is_button_pressed (some gs) num b = true ↔
      ∃ s, s < NK_GAMEPAD_MAX ∧ (gs.pad s).available = true ∧
        (gs.pad s).buttons_prev.testBit b = false ∧
        (gs.pad s).buttons.testBit b = true := by
  have hb32 : b < 32 := by rw [NK_GAMEPAD_BUTTON_LAST_eq] at hb; omega
  simp only [nk_gamepad_is_button_pressed, if_pos hneg]
  rw [loopAny_eq_true_iff]
  constructor
  · rintro ⟨c, h1, h2, h3⟩
    rw [Bool.and_eq_true, Bool.and_eq_true] at h3
    obtain ⟨ha, hprev, hcur⟩ := h3
    refine ⟨c, by omega, ha, ?_, ?_⟩
    · rw [and_flag_beq_zero _ b hb32] at hprev
      simpa using hprev
    · rw [and_flag_bne_zero _ b hb32] at hcur
      exact hcur
  · rintro ⟨s, h1, ha, hprev, hcur⟩
    refine ⟨s, by omega, by omega, ?_⟩
    rw [Bool.and_eq_true, Bool.and_eq_true]
    refine ⟨ha, ?_, ?_⟩
    · rw [and_flag_beq_zero _ b hb32, hprev]
      rfl
    · rw [and_flag_bne_zero _ b hb32]
      exact hcur

theorem is_button_pressed_nonneg_iff (gs : nk_gamepads) (num : Int) (b : Nat)
    (hb : b < NK_GAMEPAD_BUTTON_LAST) (h0 : 0 ≤ num) :
    nk_gamepad_is_button_pressed (some gs) num b = true ↔
      num < (NK_GAMEPAD_MAX : Int) ∧ (gs.pad num.toNat).available = true ∧
        (gs.pad num.toNat).buttons_prev.testBit b = false ∧
        (gs.pad num.toNat).buttons.testBit b = true := by
  have hb32 : b < 32 := by rw [NK_GAMEPAD_BUTTON_LAST_eq] at hb; omega
  simp only [nk_gamepad_is_button_pressed, if_neg (by omega : ¬num < 0)]
  by_cases hc : (NK_GAMEPAD_MAX : Int) ≤ num ∨ (gs.pad num.toNat).available = false
  · rw [if_pos hc]
    simp only [Bool.false_eq_true, false_iff]
    rintro ⟨h1, h2, _⟩
    rcases hc with hc | hc
    · omega
    · rw [h2] at hc; exact absurd hc (by simp)
  · rw [if_neg hc]
    push_neg at hc
    have hav : (gs.pad num.toNat).available = true :=
      avail_eq_true_of_ne_false _ hc.2
    rw [Bool.and_eq_true, and_flag_beq_zero _ b hb32, and_flag_bne_zero _ b hb32]
    constructor
    · rintro ⟨hp, hcur⟩
      exact ⟨hc.1, hav, by simpa using hp, hcur⟩
    · rintro ⟨_, _, hp, hcur⟩
      exact ⟨by simp [hp], hcur⟩

theorem is_button_released_nonneg_iff (gs : nk_gamepads) (num : Int) (b : Nat)
    (hb : b < NK_GAMEPAD_BUTTON_LAST) (h0 : 0 ≤ num) :
    nk_gamepad_is_button_released (some gs) num b = true ↔
      num < (NK_GAMEPAD_MAX : Int) ∧ (gs.pad num.toNat).available = true ∧
        (gs.pad num.toNat).buttons_prev.testBit b = true ∧
        (gs.pad num.toNat).buttons.testBit b = false := by
  have hb32 : b < 32 := by rw [NK_GAMEPAD_BUTTON_LAST_eq] at hb; omega
  simp only [nk_gamepad_is_button_released, if_neg (by omega : ¬num < 0)]
  by_cases hc : (NK_GAMEPAD_MAX : Int) ≤ num ∨ (gs.pad num.toNat).available = false
  · rw [if_pos hc]
    simp only [Bool.false_eq_true, false_iff]
    rintro ⟨h1, h2, _⟩
    rcases hc with hc | hc
    · omega
    · rw [h2] at hc; exact absurd hc (by simp)
  · rw [if_neg hc]
    push_neg at hc
    have hav : (gs.pad num.toNat).available = true :=
      avail_eq_true_of_ne_false _ hc.2
    rw [Bool.and_eq_true, and_flag_beq_zero _ b hb32, and_flag_bne_zero _ b hb32]
    constructor
    · rintro ⟨hp, hcur⟩
      exact ⟨hc.1, hav, hcur, by simpa using hp⟩
    · rintro ⟨_, _, hprev, hcur⟩
      exact ⟨by simp [hcur], hprev⟩

theorem is_button_released_neg_iff (gs : nk_gamepads) (num : Int) (b : Nat)
    (hb : b < NK_GAMEPAD_BUTTON_LAST) (hneg : num < 0) :
    nk_gamepad_is_button_released (some gs) num b = true ↔
      ∃ s, s < NK_GAMEPAD_MAX ∧ (gs.pad s).available = true ∧
        (gs.pad s).buttons_prev.testBit b = true ∧
        (gs.pad s).buttons.testBit b = false := by
  have hb32 : b < 32 := by rw [NK_GAMEPAD_BUTTON_LAST_eq] at hb; omega
  simp only [nk_gamepad_is_button_released, if_pos hneg]
  rw [loopAny_eq_true_iff]
  constructor
  · rintro ⟨c, h1, h2, h3⟩
    rw [Bool.and_eq_true, Bool.and_eq_true] at h3
    obtain ⟨ha, hcur, hprev⟩ := h3
    refine ⟨c, by omega, ha, ?_, ?_⟩
    · rw [and_flag_bne_zero _ b hb32] at hprev
      exact hprev
    · rw [and_flag_beq_zero _ b hb32] at hcur
      simpa using hcur
  · rintro ⟨s, h1, ha, hprev, hcur⟩
    refine ⟨s, by omega, by omega, ?_⟩
    rw [Bool.and_eq_true, Bool.and_eq_true]
    refine ⟨ha, ?_, ?_⟩
    · rw [and_flag_beq_zero _ b hb32, hcur]
      rfl
    · rw [and_flag_bne_zero _ b hb32]
      exact hprev

/-- Claim C7: is_button_down with a negative index is true iff some
available slot has the button bit set in the current mask; with a
non-negative index it is false when the index is out of range or the slot is
unavailable and otherwise is the bit test on the current mask of that slot;
it is always false on a null tracker. -/
theorem nk_gamepad_is_button_down_spec (gs : nk_gamepads) (num : Int) (b : Nat)
    (hb : b < NK_GAMEPAD_BUTTON_LAST) :
    nk_gamepad_is_button_down none num b = false ∧
    (num < 0 →
      (nk_gamepad_is_button_down (some gs) num b = true ↔
        ∃ s, s < NK_GAMEPAD_MAX ∧ (gs.pad s).available = true ∧
          (gs.pad s).buttons.testBit b = true)) ∧
    (0 ≤ num → (NK_GAMEPAD_MAX : Int) ≤ num →
      nk_gamepad_is_button_down (some gs) num b = false) ∧
    (0 ≤ num → num < (NK_GAMEPAD_MAX : Int) → (gs.pad num.toNat).available = false →
      nk_gamepad_is_button_down (some gs) num b = false) ∧
    (0 ≤ num → num < (NK_GAMEPAD_MAX : Int) → (gs.pad num.toNat).available = true →
      nk_gamepad_is_button_down (some gs) num b = (gs.pad num.toNat).buttons.testBit b) := by
  refine ⟨rfl, is_button_down_neg_iff gs num b hb, ?_, ?_, ?_⟩
  · intro h0 hge
    cases h : nk_gamepad_is_button_down (some gs) num b
    · rfl
    · have h2 := (is_button_down_nonneg_iff gs num b hb h0).mp h
      omega
  · intro h0 hlt hav
    cases h : nk_gamepad_is_button_down (some gs) num b
    · rfl
    · have h2 := (is_button_down_nonneg_iff gs num b hb h0).mp h
      rw [h2.2.1] at hav
      exact absurd hav (by simp)
  · intro h0 hlt hav
    cases h2 : (gs.pad num.toNat).buttons.testBit b
    · cases h : nk_gamepad_is_button_down (some gs) num b
      · rfl
      · have h3 := (is_button_down_nonneg_iff gs num b hb h0).mp h
        rw [h2] at h3
        exact absurd h3.2.2 (by simp)
    · exact (is_button_down_nonneg_iff gs num b hb h0).mpr ⟨hlt, hav, h2⟩

theorem nk_gamepad_is_button_down_spec_witness :
    nk_gamepad_is_button_down (some nk_gs_pressA) (-1) NK_GAMEPAD_BUTTON_A = true ∧
    nk_gamepad_is_button_down (some nk_gs_pressA) 1 NK_GAMEPAD_BUTTON_A =
      (nk_gs_pressA.pad 1).buttons.testBit NK_GAMEPAD_BUTTON_A :=
  ⟨((nk_gamepad_is_button_down_spec nk_gs_pressA (-1) NK_GAMEPAD_BUTTON_A (by decide)).2.1
      (by decide)).mpr ⟨0, by decide, by decide, by decide⟩,
    (nk_gamepad_is_button_down_spec nk_gs_pressA 1 NK_GAMEPAD_BUTTON_A (by decide)).2.2.2.2
      (by decide) (by decide) (by decide)⟩

/-- Claim C4: is_button_pressed with a non-negative index is true iff the
index is in range, the slot is available, the button bit is clear in
buttons_prev and set in buttons; with a negative index it is true iff some
available slot individually satisfies that same per slot edge condition. -/
theorem nk_gamepad_is_button_pressed_spec (gs : nk_gamepads) (num : Int) (b : Nat)
    (hb : b < NK_GAMEPAD_BUTTON_LAST) :
    (0 ≤ num →
      (nk_gamepad_is_button_pressed (some gs) num b = true ↔
        num < (NK_GAMEPAD_MAX : Int) ∧ (gs.pad num.toNat).available = true ∧
          (gs.pad num.toNat).buttons_prev.testBit b = false ∧
          (gs.pad num.toNat).buttons.testBit b = true)) ∧
    (num < 0 →
      (nk_gamepad_is_button_pressed (some gs) num b = true ↔
        ∃ s, s < NK_GAMEPAD_MAX ∧ (gs.pad s).available = true ∧
          (gs.pad s).buttons_prev.testBit b = false ∧
          (gs.pad s).buttons.testBit b = true)) :=
  ⟨is_button_pressed_nonneg_iff gs num b hb, is_button_pressed_neg_iff gs num b hb⟩

theorem nk_gamepad_is_button_pressed_spec_witness :
    nk_gamepad_is_button_pressed (some nk_gs_pressA) 0 NK_GAMEPAD_BUTTON_A = true ∧
    nk_gamepad_is_button_pressed (some nk_gs_pressA) (-1) NK_GAMEPAD_BUTTON_A = true :=
  ⟨((nk_gamepad_is_button_pressed_spec nk_gs_pressA 0 NK_GAMEPAD_BUTTON_A (by decide)).1
      (by decide)).mpr ⟨by decide, by decide, by decide, by decide⟩,
    ((nk_gamepad_is_button_pressed_spec nk_gs_pressA (-1) NK_GAMEPAD_BUTTON_A (by decide)).2
      (by decide)).mpr ⟨0, by decide, by decide, by decide, by decide⟩⟩

/-- Claim C5: is_button_released with a non-negative index is true iff the
index is in range, the slot is available, the button bit is set in
buttons_prev and clear in buttons; hence for a slot index naming one slot,
is_button_pressed and is_button_released are never both true for the same
slot and button. -/
theorem nk_gamepad_is_button_released_spec (gs : nk_gamepads) (num : Int) (b : Nat)
    (hb : b < NK_GAMEPAD_BUTTON_LAST) :
    (0 ≤ num →
      (nk_gamepad_is_button_released (some gs) num b = true ↔
        num < (NK_GAMEPAD_MAX : Int) ∧ (gs.pad num.toNat).available = true ∧
          (gs.pad num.toNat).buttons_prev.testBit b = true ∧
          (gs.pad num.toNat).buttons.testBit b = false)) ∧
    (0 ≤ num →
      ¬(nk_gamepad_is_button_pressed (some gs) num b = true ∧
        nk_gamepad_is_button_released (some gs) num b = true)) := by
  refine ⟨is_button_released_nonneg_iff gs num b hb, ?_⟩
  rintro h0 ⟨hp, hr⟩
  have h1 := (is_button_pressed_nonneg_iff gs num b hb h0).mp hp
  have h2 := (is_button_released_nonneg_iff gs num b hb h0).mp hr
  rw [h1.2.2.2] at h2
  exact absurd h2.2.2.2 (by simp)

theorem nk_gamepad_is_button_released_spec_witness :
    nk_gamepad_is_button_released (some nk_gs_afterA) 0 NK_GAMEPAD_BUTTON_A = true ∧
    ¬(nk_gamepad_is_button_pressed (some nk_gs_afterA) 0 NK_GAMEPAD_BUTTON_A = true ∧
      nk_gamepad_is_button_released (some nk_gs_afterA) 0 NK_GAMEPAD_BUTTON_A = true) :=
  ⟨((nk_gamepad_is_button_released_spec nk_gs_afterA 0 NK_GAMEPAD_BUTTON_A (by decide)).1
      (by decide)).mpr ⟨by decide, by decide, by decide, by decide⟩,
    (nk_gamepad_is_button_released_spec nk_gs_afterA 0 NK_GAMEPAD_BUTTON_A (by decide)).2
      (by decide)⟩

theorem pad_val (gs : nk_gamepads) (s : Fin NK_GAMEPAD_MAX) :
    gs.pad s.val = gs.gamepads s := by
  simp [nk_gamepads.pad, s.isLt]

theorem set_available_pad_self (gs : nk_gamepads) (s : Nat) (b : Bool)
    (hs : s < NK_GAMEPAD_MAX) :
    (nk_gamepad_set_available gs s b).pad s = { gs.pad s with available := b } := by
  simp only [nk_gamepad_set_available]
  exact pad_setPad_self gs s _ hs

/-- Claim C8: name returns none exactly when the tracker is null, the index
is out of range, or the slot is unavailable, and otherwise the stored name;
toggling availability off and back on leaves the stored name unchanged and
it is returned again. -/
theorem nk_gamepad_name_spec (gs : nk_gamepads) (num : Int) :
    nk_gamepad_name none num = none ∧
    (nk_gamepad_name (some gs) num = none ↔
      (num < 0 ∨ (NK_GAMEPAD_MAX : Int) ≤ num ∨ (gs.pad num.toNat).available = false)) ∧
    (0 ≤ num → num < (NK_GAMEPAD_MAX : Int) → (gs.pad num.toNat).available = true →
      nk_gamepad_name (some gs) num = some (gs.pad num.toNat).name) ∧
    (∀ s, s < NK_GAMEPAD_MAX →
      ((nk_gamepad_set_available gs s false).pad s).name = (gs.pad s).name ∧
      nk_gamepad_name
        (some (nk_gamepad_set_available (nk_gamepad_set_available gs s false) s true))
        (s : Int) = some (gs.pad s).name) := by
  refine ⟨rfl, ?_, ?_, ?_⟩
  · by_cases hc : num < 0 ∨ (NK_GAMEPAD_MAX : Int) ≤ num ∨ (gs.pad num.toNat).available = false
    · simp only [nk_gamepad_name, if_pos hc]
      exact iff_of_true trivial hc
    · simp only [nk_gamepad_name, if_neg hc]
      exact iff_of_false (by simp) hc
  · intro h0 h4 hav
    simp only [nk_gamepad_name]
    rw [if_neg (by push_neg; exact ⟨by omega, by omega, by rw [hav]; simp⟩)]
  · intro s hs
    have h1 : (nk_gamepad_set_available gs s false).pad s =
        { gs.pad s with available := false } := set_available_pad_self gs s false hs
    have h2 : (nk_gamepad_set_available (nk_gamepad_set_available gs s false) s true).pad s =
        { (nk_gamepad_set_available gs s false).pad s with available := true } :=
      set_available_pad_self (nk_gamepad_set_available gs s false) s true hs
    rw [h1] at h2
    constructor
    · rw [h1]
    · have ht : ((s : Int)).toNat = s := by omega
      simp only [nk_gamepad_name, ht]
      rw [if_neg (by
        push_neg
        refine ⟨by omega, by rw [NK_GAMEPAD_MAX_eq]; exact_mod_cast hs, ?_⟩
        rw [h2]; simp)]
      rw [h2]

theorem nk_gamepad_name_spec_witness :
    nk_gamepad_name (some nk_gs_init) 0 = some (nk_gs_init.pad 0).name ∧
    ((nk_gamepad_set_available nk_gs_init 0 false).pad 0).name = (nk_gs_init.pad 0).name ∧
    nk_gamepad_name
      (some (nk_gamepad_set_available (nk_gamepad_set_available nk_gs_init 0 false) 0 true))
      0 = some (nk_gs_init.pad 0).name :=
  ⟨(nk_gamepad_name_spec nk_gs_init 0).2.2.1 (by decide) (by decide) (by decide),
    ((nk_gamepad_name_spec nk_gs_init 0).2.2.2 0 (by decide)).1,
    ((nk_gamepad_name_spec nk_gs_init 0).2.2.2 0 (by decide)).2⟩

/-- Claim C9: for a valid slot index, nk_gamepad_button modifies at most the
buttons field of that slot: every other slot, the buttons_prev, available,
name and data fields of the touched slot, and the ctx and user_data of the
tracker are unchanged. -/
theorem nk_gamepad_button_frame_spec (gs gs2 : nk_gamepads) (num : Int) (b : Nat)
    (down : Bool) (h0 : 0 ≤ num) (h4 : num < (NK_GAMEPAD_MAX : Int))
    (h : nk_gamepad_button (some gs) num b down = some gs2) :
    gs2.ctx = gs.ctx ∧ gs2.user_data = gs.user_data ∧
    (∀ s, s < NK_GAMEPAD_MAX → (s : Int) ≠ num → gs2.pad s = gs.pad s) ∧
    (gs2.pad num.toNat).buttons_prev = (gs.pad num.toNat).buttons_prev ∧
    (gs2.pad num.toNat).available = (gs.pad num.toNat).available ∧
    (gs2.pad num.toNat).name = (gs.pad num.toNat).name ∧
    (gs2.pad num.toNat).data = (gs.pad num.toNat).data := by
  have ht : num.toNat < NK_GAMEPAD_MAX := by
    rw [NK_GAMEPAD_MAX_eq] at h4 ⊢; omega
  by_cases hav : (gs.pad num.toNat).available = false
  · have hgs2 : gs = gs2 := by
      simp only [nk_gamepad_button, if_pos (Or.inr (Or.inr hav)), Option.some.injEq] at h
      exact h
    subst hgs2
    exact ⟨rfl, rfl, fun s _ _ => rfl, rfl, rfl, rfl, rfl⟩
  · have hneg : ¬(num < 0 ∨ (NK_GAMEPAD_MAX : Int) ≤ num ∨
        (gs.pad num.toNat).available = false) := by
      push_neg
      exact ⟨by omega, by omega, hav⟩
    cases down with
    | true =>
      simp only [nk_gamepad_button, if_neg hneg] at h
      rw [if_pos trivial] at h
      obtain rfl := Option.some.inj h
      refine ⟨setPad_ctx _ _ _, setPad_user_data _ _ _, ?_, ?_, ?_, ?_, ?_⟩
      · intro s hs hsne
        exact pad_setPad_other _ _ _ _ (by omega)
      all_goals simp [pad_setPad_self _ _ _ ht]
    | false =>
      simp only [nk_gamepad_button, if_neg hneg] at h
      rw [if_neg (by simp)] at h
      obtain rfl := Option.some.inj h
      refine ⟨setPad_ctx _ _ _, setPad_user_data _ _ _, ?_, ?_, ?_, ?_, ?_⟩
      · intro s hs hsne
        exact pad_setPad_other _ _ _ _ (by omega)
      all_goals simp [pad_setPad_self _ _ _ ht]

theorem nk_gamepad_button_frame_spec_witness :
    nk_gs_pressA.ctx = nk_gs_init.ctx ∧
    nk_gs_pressA.pad 1 = nk_gs_init.pad 1 ∧
    (nk_gs_pressA.pad 0).buttons_prev = (nk_gs_init.pad 0).buttons_prev ∧
    (nk_gs_pressA.pad 0).name = (nk_gs_init.pad 0).name := by
  have h := nk_gamepad_button_frame_spec nk_gs_init nk_gs_pressA 0 NK_GAMEPAD_BUTTON_A true
    (by decide) (by decide) rfl
  exact ⟨h.1, h.2.2.1 1 (by decide) (by decide), h.2.2.2.1, h.2.2.2.2.2.1⟩

/-- A mask carries only bits for ordinals in [FIRST, LAST) iff it is below
2 to the NK_GAMEPAD_BUTTON_LAST. -/
def nk_mask_in_range (m : Nat) : Prop := m < 2 ^ NK_GAMEPAD_BUTTON_LAST

/-- Both masks of every slot carry only bits in [FIRST, LAST). -/
def nk_masks_in_range (gs : nk_gamepads) : Prop :=
  ∀ s : Fin NK_GAMEPAD_MAX,
    nk_mask_in_range (gs.gamepads s).buttons ∧
    nk_mask_in_range (gs.gamepads s).buttons_prev

instance (m : Nat) : Decidable (nk_mask_in_range m) := by
  unfold nk_mask_in_range; infer_instance

instance (gs : nk_gamepads) : Decidable (nk_masks_in_range gs) := by
  unfold nk_masks_in_range; infer_instance

theorem mask_in_range_testBit (m b : Nat) (h : nk_mask_in_range m)
    (hb : NK_GAMEPAD_BUTTON_LAST ≤ b) : m.testBit b = false := by
  apply Nat.testBit_eq_false_of_lt
  calc m < 2 ^ NK_GAMEPAD_BUTTON_LAST := h
    _ ≤ 2 ^ b := Nat.pow_le_pow_right (by omega) hb

theorem or_flag_lt (m b : Nat) (hm : nk_mask_in_range m) (hb : b < NK_GAMEPAD_BUTTON_LAST) :
    nk_mask_in_range (m ||| NK_GAMEPAD_BUTTON_FLAG b) := by
  rw [NK_GAMEPAD_BUTTON_FLAG_eq_two_pow b (by rw [NK_GAMEPAD_BUTTON_LAST_eq] at hb; omega)]
  have h2 : 2 ^ b < 2 ^ NK_GAMEPAD_BUTTON_LAST := Nat.pow_lt_pow_right (by omega) hb
  exact Nat.or_lt_two_pow hm h2

theorem and_le_preserves (m c : Nat) (hm : nk_mask_in_range m) :
    nk_mask_in_range (m &&& c) :=
  Nat.lt_of_le_of_lt (Nat.and_le_left) hm

/-- Claim C3 (amended): init establishes the invariant that both masks of
every slot carry only bits in [FIRST, LAST), the rotation of update and any
nk_gamepad_button call with an in range button preserve it, but
nk_gamepad_button itself performs no range check on the button ordinal: on
an available in range slot it sets bit (1 << button) of the current mask for
any button below the mask width, in or out of the enum range. -/
theorem nk_gamepad_button_range_spec (gs gs2 gs3 : nk_gamepads) (ctx ud : Nat)
    (num : Int) (b : Nat) (down : Bool) :
    ((nk_gamepad_init (some gs) ctx ud).1 = some gs2 → nk_masks_in_range gs2) ∧
    (nk_masks_in_range gs → nk_masks_in_range (nk_gamepad_rotate gs)) ∧
    (nk_masks_in_range gs → b < NK_GAMEPAD_BUTTON_LAST →
      nk_gamepad_button (some gs) num b down = some gs3 → nk_masks_in_range gs3) ∧
    (∀ s, s < NK_GAMEPAD_MAX → (gs.pad s).available = true → b < 32 →
      nk_gamepad_button (some gs) (s : Int) b true = some gs3 →
      (gs3.pad s).buttons.testBit b = true) := by
  refine ⟨?_, ?_, ?_, ?_⟩
  · intro h s
    rw [← pad_val gs2 s, init_result_pad gs ctx ud s.val s.isLt gs2 h]
    exact ⟨show nk_mask_in_range 0 by decide, show nk_mask_in_range 0 by decide⟩
  · intro h s
    have hs := h s
    show nk_mask_in_range (nk_gamepad_update_slot (gs.gamepads s)).buttons ∧
      nk_mask_in_range (nk_gamepad_update_slot (gs.gamepads s)).buttons_prev
    by_cases hav : (gs.gamepads s).available = false
    · simp only [nk_gamepad_update_slot, if_pos hav]
      exact hs
    · simp only [nk_gamepad_update_slot, if_neg hav]
      exact ⟨by decide, hs.1⟩
  · intro h hb heq
    by_cases hg : num < 0 ∨ (NK_GAMEPAD_MAX : Int) ≤ num ∨
        (gs.pad num.toNat).available = false
    · simp only [nk_gamepad_button, if_pos hg, Option.some.injEq] at heq
      rw [← heq]
      exact h
    · have ht : num.toNat < NK_GAMEPAD_MAX := by
        push_neg at hg
        rw [NK_GAMEPAD_MAX_eq] at *
        omega
      have hpv : gs.pad num.toNat = gs.gamepads ⟨num.toNat, ht⟩ := by
        simp [nk_gamepads.pad, ht]
      cases down with
      | true =>
        simp only [nk_gamepad_button, if_neg hg] at heq
        rw [if_pos trivial] at heq
        obtain rfl := Option.some.inj heq
        intro s
        rw [← pad_val]
        by_cases hsv : s.val = num.toNat
        · rw [hsv, pad_setPad_self _ _ _ ht]
          refine ⟨?_, ?_⟩
          · show nk_mask_in_range ((gs.pad num.toNat).buttons ||| NK_GAMEPAD_BUTTON_FLAG b)
            apply or_flag_lt _ _ _ hb
            rw [hpv]
            exact (h ⟨num.toNat, ht⟩).1
          · show nk_mask_in_range (gs.pad num.toNat).buttons_prev
            rw [hpv]
            exact (h ⟨num.toNat, ht⟩).2
        · rw [pad_setPad_other _ _ _ _ hsv, pad_val]
          exact h s
      | false =>
        simp only [nk_gamepad_button, if_neg hg] at heq
        rw [if_neg (by simp)] at heq
        obtain rfl := Option.some.inj heq
        intro s
        rw [← pad_val]
        by_cases hsv : s.val = num.toNat
        · rw [hsv, pad_setPad_self _ _ _ ht]
          refine ⟨?_, ?_⟩
          · show nk_mask_in_range ((gs.pad num.toNat).buttons &&&
              (NK_UINT_MAX ^^^ NK_GAMEPAD_BUTTON_FLAG b))
            apply and_le_preserves
            rw [hpv]
            exact (h ⟨num.toNat, ht⟩).1
          · show nk_mask_in_range (gs.pad num.toNat).buttons_prev
            rw [hpv]
            exact (h ⟨num.toNat, ht⟩).2
        · rw [pad_setPad_other _ _ _ _ hsv, pad_val]
          exact h s
  · intro s hs hav hb32 heq
    have ht : ((s : Int)).toNat = s := by omega
    have hg : ¬((s : Int) < 0 ∨ (NK_GAMEPAD_MAX : Int) ≤ (s : Int) ∨
        ((gs.pad ((s : Int)).toNat).available = false)) := by
      intro hcon
      rcases hcon with hc | hc | hc
      · omega
      · omega
      · rw [ht, hav] at hc
        exact absurd hc (by simp)
    simp only [nk_gamepad_button, if_neg hg] at heq
    rw [if_pos trivial] at heq
    obtain rfl := Option.some.inj heq
    rw [ht, pad_setPad_self _ _ _ (by omega : s < NK_GAMEPAD_MAX)]
    show ((gs.pad ((s : Int)).toNat).buttons ||| NK_GAMEPAD_BUTTON_FLAG b).testBit b = true
    rw [NK_GAMEPAD_BUTTON_FLAG_eq_two_pow b hb32, Nat.testBit_lor,
      Nat.testBit_two_pow_self]
    simp

theorem nk_gamepad_button_range_spec_witness :
    nk_masks_in_range nk_gs_init ∧ nk_masks_in_range nk_gs_pressA ∧
    (nk_gs_pressA.pad 0).buttons.testBit NK_GAMEPAD_BUTTON_A = true :=
  ⟨(nk_gamepad_button_range_spec nk_gs_zero nk_gs_init nk_gs_init 7 9 0
      NK_GAMEPAD_BUTTON_A true).1 rfl,
    (nk_gamepad_button_range_spec nk_gs_init nk_gs_init nk_gs_pressA 7 9 0
      NK_GAMEPAD_BUTTON_A true).2.2.1 (by decide) (by decide) rfl,
    (nk_gamepad_button_range_spec nk_gs_init nk_gs_init nk_gs_pressA 7 9 0
      NK_GAMEPAD_BUTTON_A true).2.2.2 0 (by decide) (by decide) (by decide) rfl⟩

/-- Claim C3 counterexample: calling nk_gamepad_button with the out of range
ordinal NK_GAMEPAD_BUTTON_LAST on an available slot is not a no-op: it sets
bit 12 of the current mask of slot 0 of the freshly initialized tracker. -/
theorem nk_gamepad_button_out_of_range_counterexample :
    nk_gamepad_button (some nk_gs_init) 0 NK_GAMEPAD_BUTTON_LAST true ≠ some nk_gs_init ∧
    ((nk_gamepad_button (some nk_gs_init) 0 NK_GAMEPAD_BUTTON_LAST true).map
      (fun g2 => (g2.pad 0).buttons.testBit NK_GAMEPAD_BUTTON_LAST)) = some true := by
  constructor
  · decide
  · decide

theorem NK_GAMEPAD_BUTTON_FIRST_eq : NK_GAMEPAD_BUTTON_FIRST = 0 := rfl

theorem first_pressed_button_none_iff (gs : nk_gamepads) (num : Int) :
    nk_gamepad_first_pressed_button gs num = none ↔
      ∀ b, b < NK_GAMEPAD_BUTTON_LAST →
        nk_gamepad_is_button_pressed (some gs) num b = false := by
  simp only [nk_gamepad_first_pressed_button]
  rw [loopFindSome_eq_none_iff]
  constructor
  · intro h b hb
    have h2 := h b (by rw [NK_GAMEPAD_BUTTON_FIRST_eq]; omega)
      (by rw [NK_GAMEPAD_BUTTON_FIRST_eq]; omega)
    by_cases hp : nk_gamepad_is_button_pressed (some gs) num b = true
    · rw [if_pos hp] at h2
      exact absurd h2 (by simp)
    · exact Bool.eq_false_iff.mpr hp
  · intro h c h1 h2
    rw [NK_GAMEPAD_BUTTON_FIRST_eq] at h2
    rw [if_neg (by rw [h c (by omega)]; simp)]

theorem first_pressed_button_some_iff (gs : nk_gamepads) (num : Int) (b : Nat) :
    nk_gamepad_first_pressed_button gs num = some b ↔
      b < NK_GAMEPAD_BUTTON_LAST ∧
      nk_gamepad_is_button_pressed (some gs) num b = true ∧
      ∀ c, c < b → nk_gamepad_is_button_pressed (some gs) num c = false := by
  simp only [nk_gamepad_first_pressed_button]
  rw [loopFindSome_eq_some_iff]
  constructor
  · rintro ⟨c, h1, h2, h3, h4⟩
    rw [NK_GAMEPAD_BUTTON_FIRST_eq] at h1 h2
    by_cases hp : nk_gamepad_is_button_pressed (some gs) num c = true
    · rw [if_pos hp] at h3
      obtain rfl := Option.some.inj h3
      refine ⟨by omega, hp, ?_⟩
      intro d hd
      have h5 := h4 d (by rw [NK_GAMEPAD_BUTTON_FIRST_eq]; omega) hd
      by_cases hq : nk_gamepad_is_button_pressed (some gs) num d = true
      · rw [if_pos hq] at h5
        exact absurd h5 (by simp)
      · exact Bool.eq_false_iff.mpr hq
    · rw [if_neg hp] at h3
      exact absurd h3 (by simp)
  · rintro ⟨hb, hp, hmin⟩
    refine ⟨b, by rw [NK_GAMEPAD_BUTTON_FIRST_eq]; omega,
      by rw [NK_GAMEPAD_BUTTON_FIRST_eq]; omega, by rw [if_pos hp], ?_⟩
    intro d h1 h2
    rw [if_neg (by rw [hmin d h2]; simp)]

theorem first_pressed_pair_none_iff (gs : nk_gamepads) :
    nk_gamepad_first_pressed_pair gs = none ↔
      ∀ s, s < NK_GAMEPAD_MAX →
        nk_gamepad_first_pressed_button gs (s : Int) = none := by
  simp only [nk_gamepad_first_pressed_pair]
  rw [loopFindSome_eq_none_iff]
  constructor
  · intro h s hs
    have h2 := h s (Nat.zero_le s) (by omega)
    exact Option.map_eq_none'.mp h2
  · intro h c h1 h2
    rw [h c (by omega)]
    rfl

theorem first_pressed_pair_some_iff (gs : nk_gamepads) (s b : Nat) :
    nk_gamepad_first_pressed_pair gs = some (s, b) ↔
      s < NK_GAMEPAD_MAX ∧
      nk_gamepad_first_pressed_button gs (s : Int) = some b ∧
      ∀ t, t < s → nk_gamepad_first_pressed_button gs (t : Int) = none := by
  simp only [nk_gamepad_first_pressed_pair]
  rw [loopFindSome_eq_some_iff]
  constructor
  · rintro ⟨c, h1, h2, h3, h4⟩
    cases hfc : nk_gamepad_first_pressed_button gs (c : Int) with
    | none =>
      rw [hfc] at h3
      exact absurd h3 (by simp)
    | some b2 =>
      rw [hfc] at h3
      simp only [Option.map_some', Option.some.injEq, Prod.mk.injEq] at h3
      obtain ⟨rfl, rfl⟩ := h3
      refine ⟨by omega, hfc, ?_⟩
      intro t ht
      have h5 := h4 t (Nat.zero_le t) ht
      exact Option.map_eq_none'.mp h5
  · rintro ⟨hs, hf, hmin⟩
    refine ⟨s, Nat.zero_le s, by omega, by rw [hf]; rfl, ?_⟩
    intro d h1 h2
    rw [hmin d h2]
    rfl

/-- Claim C6: any_button_pressed reports not found on a null tracker or an
index at or above the capacity; with a negative index it scans slots in
ascending order and buttons in ascending order within each slot and returns
the first pair satisfying is_button_pressed; with a valid non-negative index
it reports not found when that slot is unavailable and otherwise the lowest
pressed button ordinal of that slot. -/
theorem nk_gamepad_any_button_pressed_spec (gs : nk_gamepads) (num : Int) (s b : Nat) :
    (nk_gamepad_any_button_pressed none num true true).1 = false ∧
    ((NK_GAMEPAD_MAX : Int) ≤ num →
      (nk_gamepad_any_button_pressed (some gs) num true true).1 = false) ∧
    (num < 0 →
      ((nk_gamepad_any_button_pressed (some gs) num true true).1 = true ↔
        ∃ s2 b2, s2 < NK_GAMEPAD_MAX ∧ b2 < NK_GAMEPAD_BUTTON_LAST ∧
          nk_gamepad_is_button_pressed (some gs) (s2 : Int) b2 = true) ∧
      (nk_gamepad_any_button_pressed (some gs) num true true =
          (true, some (s : Int), some b) →
        s < NK_GAMEPAD_MAX ∧ b < NK_GAMEPAD_BUTTON_LAST ∧
        nk_gamepad_is_button_pressed (some gs) (s : Int) b = true ∧
        (∀ s2 b2, s2 < s → b2 < NK_GAMEPAD_BUTTON_LAST →
          nk_gamepad_is_button_pressed (some gs) (s2 : Int) b2 = false) ∧
        (∀ b2, b2 < b →
          nk_gamepad_is_button_pressed (some gs) (s : Int) b2 = false))) ∧
    (0 ≤ num → num < (NK_GAMEPAD_MAX : Int) → (gs.pad num.toNat).available = false →
      (nk_gamepad_any_button_pressed (some gs) num true true).1 = false) ∧
    (0 ≤ num → num < (NK_GAMEPAD_MAX : Int) → (gs.pad num.toNat).available = true →
      ((nk_gamepad_any_button_pressed (some gs) num true true).1 = true ↔
        ∃ b2, b2 < NK_GAMEPAD_BUTTON_LAST ∧
          nk_gamepad_is_button_pressed (some gs) num b2 = true) ∧
      (nk_gamepad_any_button_pressed (some gs) num true true =
          (true, some num, some b) →
        b < NK_GAMEPAD_BUTTON_LAST ∧
        nk_gamepad_is_button_pressed (some gs) num b = true ∧
        ∀ b2, b2 < b → nk_gamepad_is_button_pressed (some gs) num b2 = false)) := by
  refine ⟨rfl, ?_, ?_, ?_, ?_⟩
  · intro h
    simp only [nk_gamepad_any_button_pressed, if_pos h]
  · intro hneg
    have hn4 : ¬(NK_GAMEPAD_MAX : Int) ≤ num := by omega
    constructor
    · cases hp : nk_gamepad_first_pressed_pair gs with
      | none =>
        have hall := (first_pressed_pair_none_iff gs).mp hp
        simp only [nk_gamepad_any_button_pressed, if_neg hn4, if_pos hneg, hp]
        constructor
        · intro h
          exact absurd h (by simp)
        · rintro ⟨s2, b2, hs2, hb2, hp2⟩
          have h2 := (first_pressed_button_none_iff gs (s2 : Int)).mp (hall s2 hs2) b2 hb2
          rw [hp2] at h2
          exact absurd h2 (by simp)
      | some p =>
        obtain ⟨s2, b2⟩ := p
        have hsome := (first_pressed_pair_some_iff gs s2 b2).mp hp
        have hbtn := (first_pressed_button_some_iff gs (s2 : Int) b2).mp hsome.2.1
        simp only [nk_gamepad_any_button_pressed, if_neg hn4, if_pos hneg, hp]
        exact iff_of_true trivial ⟨s2, b2, hsome.1, hbtn.1, hbtn.2.1⟩
    · intro heq
      cases hp : nk_gamepad_first_pressed_pair gs with
      | none =>
        simp only [nk_gamepad_any_button_pressed, if_neg hn4, if_pos hneg, hp] at heq
        exact absurd heq (by simp)
      | some p =>
        obtain ⟨s2, b2⟩ := p
        simp only [nk_gamepad_any_button_pressed, if_neg hn4, if_pos hneg, hp] at heq
        obtain rfl : s2 = s := by
          have h5 := congrArg (fun t => t.2.1) heq
          simp only [if_pos rfl] at h5
          simp at h5
          exact_mod_cast h5
        obtain rfl : b2 = b := by
          have h5 := congrArg (fun t => t.2.2) heq
          simp at h5
          exact h5
        have hsome := (first_pressed_pair_some_iff gs s2 b2).mp hp
        have hbtn := (first_pressed_button_some_iff gs (s2 : Int) b2).mp hsome.2.1
        refine ⟨hsome.1, hbtn.1, hbtn.2.1, ?_, hbtn.2.2⟩
        intro s3 b3 hs3 hb3
        exact (first_pressed_button_none_iff gs (s3 : Int)).mp (hsome.2.2 s3 hs3) b3 hb3
  · intro h0 h4 hav
    simp only [nk_gamepad_any_button_pressed,
      if_neg (by omega : ¬(NK_GAMEPAD_MAX : Int) ≤ num),
      if_neg (by omega : ¬num < 0), if_pos hav]
  · intro h0 h4 hav
    have hn1 : ¬(NK_GAMEPAD_MAX : Int) ≤ num := by omega
    have hn2 : ¬num < 0 := by omega
    have hn3 : ¬(gs.pad num.toNat).available = false := by rw [hav]; simp
    constructor
    · cases hb2 : nk_gamepad_first_pressed_button gs num with
      | none =>
        have hall := (first_pressed_button_none_iff gs num).mp hb2
        simp only [nk_gamepad_any_button_pressed, if_neg hn1, if_neg hn2, if_neg hn3, hb2]
        constructor
        · intro h
          exact absurd h (by simp)
        · rintro ⟨b3, hb3, hp3⟩
          rw [hall b3 hb3] at hp3
          exact absurd hp3 (by simp)
      | some b2 =>
        have hbtn := (first_pressed_button_some_iff gs num b2).mp hb2
        simp only [nk_gamepad_any_button_pressed, if_neg hn1, if_neg hn2, if_neg hn3, hb2]
        exact iff_of_true trivial ⟨b2, hbtn.1, hbtn.2.1⟩
    · intro heq
      cases hb2 : nk_gamepad_first_pressed_button gs num with
      | none =>
        simp only [nk_gamepad_any_button_pressed, if_neg hn1, if_neg hn2, if_neg hn3, hb2] at heq
        exact absurd heq (by simp)
      | some b2 =>
        simp only [nk_gamepad_any_button_pressed, if_neg hn1, if_neg hn2, if_neg hn3, hb2] at heq
        obtain rfl : b2 = b := by
          have h5 := congrArg (fun t => t.2.2) heq
          simp at h5
          exact h5
        have hbtn := (first_pressed_button_some_iff gs num b2).mp hb2
        exact ⟨hbtn.1, hbtn.2.1, hbtn.2.2⟩

theorem nk_gamepad_any_button_pressed_spec_witness :
    (nk_gamepad_any_button_pressed (some nk_gs_pressA) (-1) true true).1 = true ∧
    nk_gamepad_is_button_pressed (some nk_gs_pressA) (((0 : Nat)) : Int)
      NK_GAMEPAD_BUTTON_A = true :=
  ⟨((nk_gamepad_any_button_pressed_spec nk_gs_pressA (-1) 0 NK_GAMEPAD_BUTTON_A).2.2.1
      (by decide)).1.mpr ⟨0, NK_GAMEPAD_BUTTON_A, by decide, by decide, by decide⟩,
    (((nk_gamepad_any_button_pressed_spec nk_gs_pressA (-1) 0 NK_GAMEPAD_BUTTON_A).2.2.1
      (by decide)).2 (by decide)).2.2.1⟩

/-- Claim C10: any_button_pressed accepts null output pointers: the found
result does not depend on which pointers are null, the slot is written only
when out_num is non-null, the button only when out_button is non-null, and
nothing is written when nothing is found. -/
theorem nk_gamepad_any_button_pressed_outputs_spec (g : Option nk_gamepads)
    (num : Int) (o1 o2 : Bool) :
    (nk_gamepad_any_button_pressed g num o1 o2).1 =
      (nk_gamepad_any_button_pressed g num true true).1 ∧
    (nk_gamepad_any_button_pressed g num o1 o2).2.1 =
      (if o1 then (nk_gamepad_any_button_pressed g num true true).2.1 else none) ∧
    (nk_gamepad_any_button_pressed g num o1 o2).2.2 =
      (if o2 then (nk_gamepad_any_button_pressed g num true true).2.2 else none) ∧
    ((nk_gamepad_any_button_pressed g num o1 o2).1 = false →
      (nk_gamepad_any_button_pressed g num o1 o2).2.1 = none ∧
      (nk_gamepad_any_button_pressed g num o1 o2).2.2 = none) ∧
    ((nk_gamepad_any_button_pressed g num true true).1 = true →
      ((nk_gamepad_any_button_pressed g num true true).2.1).isSome = true ∧
      ((nk_gamepad_any_button_pressed g num true true).2.2).isSome = true) := by
  cases g with
  | none =>
    refine ⟨rfl, by simp [nk_gamepad_any_button_pressed], by simp [nk_gamepad_any_button_pressed], ?_, ?_⟩
    · intro _
      exact ⟨rfl, rfl⟩
    · intro h
      exact absurd h (by simp [nk_gamepad_any_button_pressed])
  | some gs =>
    by_cases h1 : (NK_GAMEPAD_MAX : Int) ≤ num
    · refine ⟨?_, ?_, ?_, ?_, ?_⟩ <;>
        simp [nk_gamepad_any_button_pressed, if_pos h1]
    · by_cases h2 : num < 0
      · cases hp : nk_gamepad_first_pressed_pair gs with
        | none =>
          refine ⟨?_, ?_, ?_, ?_, ?_⟩ <;>
            simp [nk_gamepad_any_button_pressed, if_neg h1, if_pos h2, hp]
        | some p =>
          obtain ⟨s2, b2⟩ := p
          refine ⟨?_, ?_, ?_, ?_, ?_⟩ <;>
            simp [nk_gamepad_any_button_pressed, if_neg h1, if_pos h2, hp]
      · by_cases h3 : (gs.pad num.toNat).available = false
        · refine ⟨?_, ?_, ?_, ?_, ?_⟩ <;>
            simp [nk_gamepad_any_button_pressed, if_neg h1, if_neg h2, if_pos h3]
        · cases hb : nk_gamepad_first_pressed_button gs num with
          | none =>
            refine ⟨?_, ?_, ?_, ?_, ?_⟩ <;>
              simp [nk_gamepad_any_button_pressed, if_neg h1, if_neg h2, if_neg h3, hb]
          | some b2 =>
            refine ⟨?_, ?_, ?_, ?_, ?_⟩ <;>
              simp [nk_gamepad_any_button_pressed, if_neg h1, if_neg h2, if_neg h3, hb]

theorem nk_gamepad_any_button_pressed_outputs_spec_witness :
    (nk_gamepad_any_button_pressed (some nk_gs_pressA) (-1) false true).1 =
      (nk_gamepad_any_button_pressed (some nk_gs_pressA) (-1) true true).1 ∧
    (nk_gamepad_any_button_pressed (some nk_gs_pressA) (-1) false true).2.1 = none ∧
    (nk_gamepad_any_button_pressed (some nk_gs_pressA) (-1) false true).2.2 =
      (nk_gamepad_any_button_pressed (some nk_gs_pressA) (-1) true true).2.2 := by
  have h := nk_gamepad_any_button_pressed_outputs_spec (some nk_gs_pressA) (-1) false true
  exact ⟨h.1, by rw [h.2.1]; simp, by rw [h.2.2.1]; simp⟩
